import Mathlib

/-!
Verification of the zone-matching / deduplication monitor of `seismowatch`
(`src/seismowatch/alerts.py` and the fetch adapter in
`src/seismowatch/earthquakes.py`), as a shallow embedding in Lean 4.

Modelling conventions:
- Python floats are modelled as rationals (`ℚ`); every arithmetic operation
  the monitor performs on them (subtraction, `abs`, multiplication, squaring,
  comparison) is exact on the values exercised here, except the square root,
  which is modelled by `Real.sqrt` applied to the rational operand.
- `datetime` values are modelled by an opaque integer timestamp (`Timestamp`).
- The pandas DataFrame returned by `fetch_earthquakes` is modelled as a
  `List Event` of the flat records built in `earthquakes.py` lines 42-54;
  a `requests` failure (caught at lines 58-60, returning an empty frame) and
  any other fetch-side error (caught by the outer handler in
  `check_for_earthquakes`, lines 257-258) are both modelled by `Except.error`.
- Notification handlers are modelled as functions `EarthquakeAlert →
  Except String Bool`: an `Except.error` models `send_alert` raising, which
  `check_for_earthquakes` catches per handler (lines 244-247).
- File persistence is modelled by values of type `SavedData` (the JSON record
  written by `_save_state`); `check_for_earthquakes` returns the record it
  writes, if any, instead of performing I/O.
-/

namespace Seismowatch

/-- Timestamps stand in for Python `datetime` values. -/
abbrev Timestamp := ℤ

/-- Alert zone dataclass (`alerts.py` lines 15-22). -/
structure AlertZone where
  name : String
  center_lat : ℚ
  center_lon : ℚ
  radius_km : ℚ
  min_magnitude : ℚ
deriving DecidableEq, Repr

/-- Squared flat-earth distance in km² from the zone center, exactly as
computed inside `contains_earthquake` (`alerts.py` lines 31-35):
`lat_diff = abs(center_lat - lat)`, `lon_diff = abs(center_lon - lon)`,
summand `pow(diff * 111, 2)` each. -/
def AlertZone.distSqKm (z : AlertZone) (lat lon : ℚ) : ℚ :=
  (|z.center_lat - lat| * 111) ^ 2 + (|z.center_lon - lon| * 111) ^ 2

/-- The `distance_km` value of `alerts.py` line 35: square root of the sum of
squares. -/
noncomputable def AlertZone.distance_km (z : AlertZone) (lat lon : ℚ) : ℝ :=
  Real.sqrt ((z.distSqKm lat lon : ℚ) : ℝ)

/-- Containment test `AlertZone.contains_earthquake` (`alerts.py` lines
24-37): reject if `magnitude < min_magnitude`, otherwise test
`distance_km <= radius_km`. -/
def AlertZone.contains_earthquake (z : AlertZone) (lat lon magnitude : ℚ) : Prop :=
  ¬ (magnitude < z.min_magnitude) ∧ z.distance_km lat lon ≤ (z.radius_km : ℝ)

/-- The square-root comparison in the containment test is equivalent to a
rational comparison of squares, so the test is decidable by exact rational
arithmetic. -/
instance (z : AlertZone) (lat lon magnitude : ℚ) :
    Decidable (z.contains_earthquake lat lon magnitude) :=
  decidable_of_iff
    (¬ (magnitude < z.min_magnitude) ∧
      (0 ≤ z.radius_km ∧ z.distSqKm lat lon ≤ z.radius_km ^ 2))
    (by
      unfold AlertZone.contains_earthquake AlertZone.distance_km
      rw [Real.sqrt_le_iff]
      constructor
      · rintro ⟨hm, hr, hd⟩
        refine ⟨hm, ?_, ?_⟩
        · exact_mod_cast hr
        · have h2 : ((z.distSqKm lat lon : ℚ) : ℝ) ≤ ((z.radius_km ^ 2 : ℚ) : ℝ) := by
            exact_mod_cast hd
          push_cast at h2
          exact h2
      · rintro ⟨hm, hr, hd⟩
        refine ⟨hm, ?_, ?_⟩
        · exact_mod_cast hr
        · have h2 : ((z.distSqKm lat lon : ℚ) : ℝ) ≤ ((z.radius_km ^ 2 : ℚ) : ℝ) := by
            push_cast
            exact hd
          exact_mod_cast h2)

/-- Event record built by the adapter from one GeoJSON feature
(`earthquakes.py` lines 42-54). -/
structure Event where
  id : String
  magnitude : ℚ
  place : String
  time : Timestamp
  latitude : ℚ
  longitude : ℚ
  depth : ℚ
  url : String
  tsunami : Bool
  felt : ℕ
  significance : ℕ
deriving DecidableEq, Repr

/-- Alert dataclass `EarthquakeAlert` (`alerts.py` lines 39-51). -/
structure EarthquakeAlert where
  earthquake_id : String
  magnitude : ℚ
  location : String
  latitude : ℚ
  longitude : ℚ
  depth : ℚ
  time : Timestamp
  zone_name : String
  alert_time : Timestamp
  tsunami_warning : Bool
deriving DecidableEq, Repr

/-- Notification handler: `send_alert` either returns a `Bool` or raises,
the latter modelled by `Except.error`; the dispatch loop catches and logs it
per handler (`alerts.py` lines 244-247). -/
abbrev Handler := EarthquakeAlert → Except String Bool

/-- Monitor state (`alerts.py` lines 148-159).  The fetcher and `data_file`
are I/O handles and stay outside the model (fetch results and file contents
are passed explicitly); `check_interval` and `running` only drive the sleep
loop of `start_monitoring` and carry no alerting logic. -/
structure EarthquakeMonitor where
  alert_zones : List AlertZone
  notification_handlers : List Handler
  seen_earthquakes : Finset String
  last_check : Option Timestamp

/-- JSON record written by `_save_state` (`alerts.py` lines 185-188): the
seen set as a list plus `last_check`, serialised by `isoformat` when present
and `null` otherwise.  Python's `datetime.fromisoformat` inverts `isoformat`
exactly, so the serialised timestamp is modelled by the timestamp itself. -/
structure SavedData where
  seen_earthquakes : List String
  last_check : Option Timestamp
deriving DecidableEq, Repr

/-- State serialisation performed by `_save_state` (`alerts.py` lines
182-192).  Python's `list(self.seen_earthquakes)` enumerates the set in an
unspecified order; the model picks the sorted enumeration, which carries
the same elements. -/
def saveState (m : EarthquakeMonitor) : SavedData :=
  { seen_earthquakes := m.seen_earthquakes.sort (· ≤ ·)
    last_check := m.last_check }

/-- State restoration performed by `_load_state` (`alerts.py` lines
170-180): a missing (or unreadable) file leaves the state untouched;
otherwise the seen set is rebuilt from the stored list and `last_check` is
overwritten only when the stored value is non-null (the `if
data.get('last_check')` truthiness test). -/
def loadState (m : EarthquakeMonitor) (file : Option SavedData) : EarthquakeMonitor :=
  match file with
  | none => m
  | some data =>
    { m with
      seen_earthquakes := data.seen_earthquakes.toFinset
      last_check :=
        match data.last_check with
        | some t => some t
        | none => m.last_check }

/-- Zone registration `add_alert_zone` (`alerts.py` lines 161-164): append
the zone, then save state; the written record is returned alongside. -/
def add_alert_zone (m : EarthquakeMonitor) (zone : AlertZone) :
    EarthquakeMonitor × SavedData :=
  let m2 := { m with alert_zones := m.alert_zones ++ [zone] }
  (m2, saveState m2)

/-- Handler registration `add_notification_handler` (`alerts.py` lines
166-168). -/
def add_notification_handler (m : EarthquakeMonitor) (handler : Handler) :
    EarthquakeMonitor :=
  { m with notification_handlers := m.notification_handlers ++ [handler] }

/-- Alert construction (`alerts.py` lines 223-234); `now` is the
`datetime.now()` used for `alert_time`. -/
def mkAlert (e : Event) (zone : AlertZone) (now : Timestamp) : EarthquakeAlert :=
  { earthquake_id := e.id
    magnitude := e.magnitude
    location := e.place
    latitude := e.latitude
    longitude := e.longitude
    depth := e.depth
    time := e.time
    zone_name := zone.name
    alert_time := now
    tsunami_warning := e.tsunami }

/-- Inner zone scan of `check_for_earthquakes` (`alerts.py` lines 217-236):
walk the zones in registration order and stop at the first one whose
containment test passes (`break`), if any. -/
def scanZones : List AlertZone → Event → Option AlertZone
  | [], _ => none
  | zone :: rest, e =>
    if zone.contains_earthquake e.latitude e.longitude e.magnitude then some zone
    else scanZones rest e

/-- Outer event loop of `check_for_earthquakes` (`alerts.py` lines
209-239): skip events whose id is already seen, otherwise scan the zones,
collect at most one alert per event, and mark the id seen either way.
Returns the final seen set and the accumulated `new_alerts` in event
order. -/
def processEvents (zones : List AlertZone) (now : Timestamp) :
    Finset String → List Event → Finset String × List EarthquakeAlert
  | seen, [] => (seen, [])
  | seen, e :: rest =>
    if e.id ∈ seen then processEvents zones now seen rest
    else
      let res := processEvents zones now (insert e.id seen) rest
      match scanZones zones e with
      | some zone => (res.1, mkAlert e zone now :: res.2)
      | none => res

/-- Dispatch loop of `check_for_earthquakes` (`alerts.py` lines 242-247):
every alert is offered to every handler in order; each `send_alert` outcome
(return value or caught exception) is recorded and never propagated. -/
def dispatchAlerts (handlers : List Handler) (alerts : List EarthquakeAlert) :
    List (EarthquakeAlert × List (Except String Bool)) :=
  alerts.map (fun a => (a, handlers.map (fun h => h a)))

/-- Fixed minimum-magnitude floor passed to the fetch by
`check_for_earthquakes` (`alerts.py` line 199, `min_magnitude=3.0`). -/
def MONITORING_FLOOR : ℚ := 3

/-- Result of one poll cycle: the updated monitor, the `new_alerts` list,
the per-alert dispatch outcomes, and the state record written by
`_save_state` (`none` when the cycle returned before saving). -/
structure PollResult where
  monitor : EarthquakeMonitor
  new_alerts : List EarthquakeAlert
  dispatched : List (EarthquakeAlert × List (Except String Bool))
  saved : Option SavedData

/-- Poll cycle `check_for_earthquakes` (`alerts.py` lines 194-258).
`fetchResult` models the adapter call of lines 198-202: `Except.error`
covers both a `requests` failure (caught inside `fetch_earthquakes`,
`earthquakes.py` lines 58-60, yielding an empty frame and hence the early
return of line 204-205) and any other fetch-side error (caught by the
outer handler of lines 257-258); both leave the monitor untouched.  An
empty fetched frame triggers the early `return` of lines 204-205 before
`last_check` is updated or state is saved. -/
def check_for_earthquakes (m : EarthquakeMonitor)
    (fetchResult : Except String (List Event)) (now : Timestamp) : PollResult :=
  match fetchResult with
  | Except.error _ =>
    { monitor := m, new_alerts := [], dispatched := [], saved := none }
  | Except.ok [] =>
    { monitor := m, new_alerts := [], dispatched := [], saved := none }
  | Except.ok (e :: rest) =>
    let res := processEvents m.alert_zones now m.seen_earthquakes (e :: rest)
    let m2 : EarthquakeMonitor :=
      { m with seen_earthquakes := res.1, last_check := some now }
    { monitor := m2
      new_alerts := res.2
      dispatched := dispatchAlerts m.notification_handlers res.2
      saved := some (saveState m2) }

/-- Monitor as built by `EarthquakeMonitor.__init__` before `_load_state`
runs (`alerts.py` lines 148-156): no zones, no handlers, empty seen set,
no last check. -/
def initialMonitor : EarthquakeMonitor :=
  { alert_zones := []
    notification_handlers := []
    seen_earthquakes := ∅
    last_check := none }

/-- Monitor configurations reachable through the public operations:
construction (`__init__`, which runs `_load_state` on whatever state file
exists), zone registration, handler registration, and poll cycles. -/
inductive Reachable : EarthquakeMonitor → Prop
  | init (file : Option SavedData) : Reachable (loadState initialMonitor file)
  | addZone (m : EarthquakeMonitor) (z : AlertZone) :
      Reachable m → Reachable (add_alert_zone m z).1
  | addHandler (m : EarthquakeMonitor) (h : Handler) :
      Reachable m → Reachable (add_notification_handler m h)
  | poll (m : EarthquakeMonitor) (r : Except String (List Event)) (now : Timestamp) :
      Reachable m → Reachable (check_for_earthquakes m r now).monitor

/-- Demo zones registered by `create_demo_monitor` (`alerts.py` lines
321-326). -/
def demoZones : List AlertZone :=
  [ { name := "San Francisco Bay Area", center_lat := 37.7749,
      center_lon := -122.4194, radius_km := 100, min_magnitude := 4.0 },
    { name := "Los Angeles Region", center_lat := 34.0522,
      center_lon := -118.2437, radius_km := 150, min_magnitude := 4.5 },
    { name := "Tokyo Metropolitan", center_lat := 35.6762,
      center_lon := 139.6503, radius_km := 80, min_magnitude := 5.0 },
    { name := "Global Major Events", center_lat := 0,
      center_lon := 0, radius_km := 50000, min_magnitude := 6.5 } ]

/-- Zone of the spec's worked scenario: center (0,0), radius 200 km, floor
magnitude 4.0. -/
def testZone : AlertZone :=
  { name := "Test", center_lat := 0, center_lon := 0,
    radius_km := 200, min_magnitude := 4 }

/-- A second, wider zone around the same center, overlapping `testZone`. -/
def zoneWide : AlertZone :=
  { name := "Wide", center_lat := 0, center_lon := 0,
    radius_km := 300, min_magnitude := 4 }

/-- A zone whose magnitude floor lies below the fixed fetch floor of 3.0. -/
def lowZone : AlertZone :=
  { name := "Low", center_lat := 0, center_lon := 0,
    radius_km := 100, min_magnitude := 2 }

/-- A zone whose radius is exactly the flat-earth distance of one degree of
latitude, for the boundary test. -/
def edgeZone : AlertZone :=
  { name := "Edge", center_lat := 0, center_lon := 0,
    radius_km := 111, min_magnitude := 4 }

/-- Concrete fetched event at (1.0, 1.0) with magnitude 5.0, the spec's
worked scenario. -/
def testEvent : Event :=
  { id := "ev1", magnitude := 5, place := "Somewhere", time := 0,
    latitude := 1, longitude := 1, depth := 10, url := "u",
    tsunami := false, felt := 0, significance := 0 }

/-- Monitor with the two overlapping zones registered, `testZone` first. -/
def monitorAB : EarthquakeMonitor :=
  { alert_zones := [testZone, zoneWide], notification_handlers := [],
    seen_earthquakes := ∅, last_check := none }

/-- Monitor that has already recorded `testEvent.id` as seen. -/
def monitorSeen : EarthquakeMonitor :=
  { alert_zones := [testZone], notification_handlers := [],
    seen_earthquakes := {"ev1"}, last_check := none }

/-- Handler that raises on every alert. -/
def failHandler : Handler := fun _ => Except.error ("boom")

/-- Handler that succeeds on every alert. -/
def okHandler : Handler := fun _ => Except.ok true

/-- Concrete alert used to exercise the dispatch loop. -/
def sampleAlert : EarthquakeAlert := mkAlert testEvent testZone 7

/-- The square-root comparison of the containment test restated as a
rational comparison of squares. -/
theorem contains_iff_ratTest (z : AlertZone) (lat lon magnitude : ℚ) :
    z.contains_earthquake lat lon magnitude ↔
      ¬ (magnitude < z.min_magnitude) ∧
        (0 ≤ z.radius_km ∧ z.distSqKm lat lon ≤ z.radius_km ^ 2) := by
  unfold AlertZone.contains_earthquake AlertZone.distance_km
  rw [Real.sqrt_le_iff]
  constructor
  · rintro ⟨hm, hr, hd⟩
    refine ⟨hm, ?_, ?_⟩
    · exact_mod_cast hr
    · have h2 : ((z.distSqKm lat lon : ℚ) : ℝ) ≤ ((z.radius_km ^ 2 : ℚ) : ℝ) := by
        push_cast
        exact hd
      exact_mod_cast h2
  · rintro ⟨hm, hr, hd⟩
    refine ⟨hm, ?_, ?_⟩
    · exact_mod_cast hr
    · have h2 : ((z.distSqKm lat lon : ℚ) : ℝ) ≤ ((z.radius_km ^ 2 : ℚ) : ℝ) := by
        exact_mod_cast hd
      push_cast at h2
      exact h2

/-- Unfolding lemma for the zone scan on a cons cell. -/
theorem scanZones_cons (zone : AlertZone) (rest : List AlertZone) (e : Event) :
    scanZones (zone :: rest) e =
      if zone.contains_earthquake e.latitude e.longitude e.magnitude then some zone
      else scanZones rest e := rfl

/-- The zone scan returns the earliest registered zone whose containment
test passes: if the zone at index `k` matches and no zone before it does,
the scan stops exactly there. -/
theorem scanZones_first (zones : List AlertZone) (e : Event) (k : ℕ)
    (hk : k < zones.length)
    (hzk : (zones.get ⟨k, hk⟩).contains_earthquake e.latitude e.longitude e.magnitude)
    (hearlier : ∀ l (hl : l < zones.length), l < k →
      ¬ (zones.get ⟨l, hl⟩).contains_earthquake e.latitude e.longitude e.magnitude) :
    scanZones zones e = some (zones.get ⟨k, hk⟩) := by
  induction zones generalizing k with
  | nil => exact absurd hk (Nat.not_lt_zero k)
  | cons zone rest ih =>
    cases k with
    | zero =>
      simp only [List.get] at hzk ⊢
      simp [scanZones_cons, if_pos hzk]
    | succ k =>
      have hzone : ¬ zone.contains_earthquake e.latitude e.longitude e.magnitude := by
        have := hearlier 0 (Nat.succ_le_succ (Nat.zero_le _)) (Nat.succ_pos k)
        simpa using this
      have hk' : k < rest.length := Nat.lt_of_succ_lt_succ hk
      rw [scanZones_cons, if_neg hzone]
      have := ih k hk' (by simpa using hzk) ?_
      · simpa using this
      · intro l hl hlk
        have := hearlier (l + 1) (Nat.succ_lt_succ hl) (Nat.succ_lt_succ hlk)
        simpa using this

/-- The seen set returned by the event loop is the previous seen set
united with the ids of all processed events. -/
theorem processEvents_fst (zones : List AlertZone) (now : Timestamp)
    (seen : Finset String) (events : List Event) :
    (processEvents zones now seen events).1 = seen ∪ (events.map Event.id).toFinset := by
  induction events generalizing seen with
  | nil => simp [processEvents]
  | cons e rest ih =>
    by_cases hs : e.id ∈ seen
    · rw [processEvents, if_pos hs, ih]
      ext x
      simp only [Finset.mem_union, List.map_cons, List.toFinset_cons, Finset.mem_insert]
      constructor
      · rintro (h | h)
        · exact Or.inl h
        · exact Or.inr (Or.inr h)
      · rintro (h | h | h)
        · exact Or.inl h
        · exact Or.inl (h ▸ hs)
        · exact Or.inr h
    · rw [processEvents, if_neg hs]
      cases hscan : scanZones zones e with
      | none =>
        simp only [hscan, ih]
        ext x
        simp only [Finset.mem_union, Finset.mem_insert, List.map_cons,
          List.toFinset_cons]
        tauto
      | some zone =>
        simp only [hscan, ih]
        ext x
        simp only [Finset.mem_union, Finset.mem_insert, List.map_cons,
          List.toFinset_cons]
        tauto

/-- Deduplication core: no alert is ever produced for an id that is
already in the seen set when the event loop starts. -/
theorem processEvents_no_alert_of_seen (zones : List AlertZone) (now : Timestamp)
    (seen : Finset String) (events : List Event) (x : String) (hx : x ∈ seen) :
    ∀ a ∈ (processEvents zones now seen events).2, a.earthquake_id ≠ x := by
  induction events generalizing seen with
  | nil => simp [processEvents]
  | cons e rest ih =>
    by_cases hs : e.id ∈ seen
    · rw [processEvents, if_pos hs]
      exact ih seen hx
    · rw [processEvents, if_neg hs]
      have hx' : x ∈ insert e.id seen := Finset.mem_insert_of_mem hx
      have hne : e.id ≠ x := fun h => hs (h ▸ hx)
      cases hscan : scanZones zones e with
      | none =>
        simp only [hscan]
        exact ih (insert e.id seen) hx'
      | some zone =>
        simp only [hscan]
        intro a ha
        rcases List.mem_cons.mp ha with h | h
        · rw [h]
          exact hne
        · exact ih (insert e.id seen) hx' a h

/-- Exactly-once core: if `e` occurs among the fetched events, fetched ids
are pairwise distinct, `e.id` is not yet seen, and the zone scan for `e`
stops at `zf`, then the alerts produced by the event loop contain exactly
one alert for `e.id`, namely the alert built from `e` and `zf`. -/
theorem processEvents_filter_singleton (zones : List AlertZone) (now : Timestamp)
    (seen : Finset String) (events : List Event) (e : Event) (zf : AlertZone)
    (he : e ∈ events)
    (hnodup : (events.map Event.id).Nodup)
    (hnew : e.id ∉ seen)
    (hscan : scanZones zones e = some zf) :
    (processEvents zones now seen events).2.filter
      (fun a => a.earthquake_id == e.id) = [mkAlert e zf now] := by
  induction events generalizing seen with
  | nil => cases he
  | cons e0 rest ih =>
    have hnodup' : (rest.map Event.id).Nodup := (List.nodup_cons.mp hnodup).2
    rcases List.mem_cons.mp he with rfl | hmem
    · rw [processEvents, if_neg hnew, hscan]
      have hrest : ∀ a ∈ (processEvents zones now (insert e.id seen) rest).2,
          a.earthquake_id ≠ e.id :=
        processEvents_no_alert_of_seen zones now (insert e.id seen) rest e.id
          (Finset.mem_insert_self e.id seen)
      have hnil : (processEvents zones now (insert e.id seen) rest).2.filter
          (fun a => a.earthquake_id == e.id) = [] := by
        rw [List.filter_eq_nil_iff]
        intro a ha
        simpa using hrest a ha
      simp only [List.filter_cons]
      rw [if_pos (by simp [mkAlert]), hnil]
    · have hne : e0.id ≠ e.id := by
        intro h
        exact (List.nodup_cons.mp hnodup).1 (h ▸ List.mem_map_of_mem Event.id hmem)
      by_cases hs : e0.id ∈ seen
      · rw [processEvents, if_pos hs]
        exact ih seen hmem hnodup' hnew
      · rw [processEvents, if_neg hs]
        have hnew' : e.id ∉ insert e0.id seen := by
          simp only [Finset.mem_insert]
          rintro (h | h)
          · exact hne h.symm
          · exact hnew h
        cases hscan0 : scanZones zones e0 with
        | none =>
          simp only [hscan0]
          exact ih (insert e0.id seen) hmem hnodup' hnew'
        | some zone =>
          simp only [hscan0, List.filter_cons]
          rw [if_neg (by simpa [mkAlert] using hne)]
          exact ih (insert e0.id seen) hmem hnodup' hnew'

/-- C3: the containment test accepts exactly when the magnitude reaches the
zone floor and the flat-earth distance `sqrt((111*(center_lat-lat))^2 +
(111*(center_lon-lon))^2)` is at most `radius_km`; in particular the spec's
test zone matches the event (1.0, 1.0, magnitude 5.0), and a magnitude-3.9
event never matches it regardless of position. -/
theorem C3_contains_characterisation (z : AlertZone) (lat lon magnitude : ℚ) :
    (z.contains_earthquake lat lon magnitude ↔
      (z.min_magnitude ≤ magnitude ∧
        Real.sqrt (((111 * (z.center_lat - lat)) ^ 2
            + (111 * (z.center_lon - lon)) ^ 2 : ℚ) : ℝ)
          ≤ (z.radius_km : ℝ))) ∧
    testZone.contains_earthquake 1 1 5 ∧
    (∀ lat2 lon2 : ℚ, ¬ testZone.contains_earthquake lat2 lon2 (39 / 10)) := by
  refine ⟨?_, ?_, ?_⟩
  · have harg : ((z.distSqKm lat lon : ℚ) : ℝ) =
        (((111 * (z.center_lat - lat)) ^ 2
          + (111 * (z.center_lon - lon)) ^ 2 : ℚ) : ℝ) := by
      congr 1
      unfold AlertZone.distSqKm
      rw [mul_pow, mul_pow, sq_abs, sq_abs]
      ring
    unfold AlertZone.contains_earthquake AlertZone.distance_km
    rw [harg, not_lt]
  · rw [contains_iff_ratTest]
    refine ⟨by norm_num [testZone], by norm_num [testZone], ?_⟩
    norm_num [testZone, AlertZone.distSqKm]
  · intro lat2 lon2
    rw [contains_iff_ratTest]
    rintro ⟨hm, _⟩
    exact hm (by norm_num [testZone])

/-- C9: the containment test is inclusive at both boundaries — an event
whose flat-earth distance to the center is exactly `radius_km` and whose
magnitude is exactly `min_magnitude` matches the zone. -/
theorem C9_boundary_inclusive (z : AlertZone) (lat lon : ℚ)
    (hd : z.distance_km lat lon = (z.radius_km : ℝ)) :
    z.contains_earthquake lat lon z.min_magnitude :=
  ⟨fun h => lt_irrefl _ h, le_of_eq hd⟩

/-- C9 witness: the edge zone of radius 111 km at the origin, evaluated on
an event one degree of latitude away with magnitude exactly the floor. -/
theorem C9_witness :
    edgeZone.distance_km 1 0 = ((edgeZone.radius_km : ℚ) : ℝ) ∧
    edgeZone.contains_earthquake 1 0 edgeZone.min_magnitude := by
  have hd : edgeZone.distance_km 1 0 = ((edgeZone.radius_km : ℚ) : ℝ) := by
    unfold AlertZone.distance_km
    have harg : ((edgeZone.distSqKm 1 0 : ℚ) : ℝ) = (111 : ℝ) ^ 2 := by
      norm_num [AlertZone.distSqKm, edgeZone]
    rw [harg, Real.sqrt_sq (by norm_num)]
    norm_num [edgeZone]
  exact ⟨hd, C9_boundary_inclusive edgeZone 1 0 hd⟩

/-- C2: a poll never produces an alert for an event id already recorded in
the seen set, whatever the fetch returned. -/
theorem C2_no_realert_for_seen_id (m : EarthquakeMonitor)
    (r : Except String (List Event)) (now : Timestamp) (x : String)
    (hx : x ∈ m.seen_earthquakes) :
    ∀ a ∈ (check_for_earthquakes m r now).new_alerts, a.earthquake_id ≠ x := by
  cases r with
  | error msg =>
    intro a ha
    simp [check_for_earthquakes] at ha
  | ok events =>
    cases events with
    | nil =>
      intro a ha
      simp [check_for_earthquakes] at ha
    | cons e rest =>
      intro a ha
      exact processEvents_no_alert_of_seen m.alert_zones now m.seen_earthquakes
        (e :: rest) x hx a ha

/-- C2 witness: a monitor that has already seen the event id produces no
alert for it even though the event matches a registered zone. -/
theorem C2_witness :
    testEvent.id ∈ monitorSeen.seen_earthquakes ∧
    ∀ a ∈ (check_for_earthquakes monitorSeen (Except.ok [testEvent]) 7).new_alerts,
      a.earthquake_id ≠ testEvent.id := by
  have hx : testEvent.id ∈ monitorSeen.seen_earthquakes := by
    simp [monitorSeen, testEvent]
  exact ⟨hx, C2_no_realert_for_seen_id monitorSeen (Except.ok [testEvent]) 7 testEvent.id hx⟩

/-- C8: a failed fetch makes the poll a no-op — no alerts, no dispatch, the
monitor state unchanged, and nothing written; no error escapes the poll. -/
theorem C8_fetch_failure_noop (m : EarthquakeMonitor) (msg : String) (now : Timestamp) :
    (check_for_earthquakes m (Except.error msg) now).monitor = m ∧
    (check_for_earthquakes m (Except.error msg) now).new_alerts = [] ∧
    (check_for_earthquakes m (Except.error msg) now).dispatched = [] ∧
    (check_for_earthquakes m (Except.error msg) now).saved = none :=
  ⟨rfl, rfl, rfl, rfl⟩

/-- C10: loading the record written by save restores exactly the same seen
set and the same `last_check` value (including the `None` case). -/
theorem C10_save_load_roundtrip (m : EarthquakeMonitor) :
    loadState m (some (saveState m)) = m := by
  cases m with
  | mk zones handlers seen last =>
    cases last <;> simp [loadState, saveState, Finset.sort_toFinset]

/-- C6: the seen set after a poll is the previous seen set united with all
fetched ids; it never shrinks under a poll, and neither zone nor handler
registration touches it. -/
theorem C6_seen_monotone (m : EarthquakeMonitor) (events : List Event)
    (r : Except String (List Event)) (now now2 : Timestamp)
    (z : AlertZone) (h : Handler) :
    (check_for_earthquakes m (Except.ok events) now).monitor.seen_earthquakes
      = m.seen_earthquakes ∪ (events.map Event.id).toFinset ∧
    m.seen_earthquakes ⊆ (check_for_earthquakes m r now2).monitor.seen_earthquakes ∧
    (add_alert_zone m z).1.seen_earthquakes = m.seen_earthquakes ∧
    (add_notification_handler m h).seen_earthquakes = m.seen_earthquakes := by
  have key : ∀ (evts : List Event) (t : Timestamp),
      (check_for_earthquakes m (Except.ok evts) t).monitor.seen_earthquakes
        = m.seen_earthquakes ∪ (evts.map Event.id).toFinset := by
    intro evts t
    cases evts with
    | nil => simp [check_for_earthquakes]
    | cons e rest =>
      exact processEvents_fst m.alert_zones t m.seen_earthquakes (e :: rest)
  refine ⟨key events now, ?_, rfl, rfl⟩
  cases r with
  | error msg => exact subset_rfl
  | ok evts =>
    rw [key evts now2]
    exact Finset.subset_union_left

/-- C7: dispatch offers every alert to every registered handler; a handler
raising on an alert is recorded per handler and does not prevent any other
handler from receiving that alert, nor shorten the dispatch list. -/
theorem C7_dispatch_isolated (alerts : List EarthquakeAlert)
    (handlers : List Handler) (a : EarthquakeAlert) (ha : a ∈ alerts)
    (i j : ℕ) (hi : i < handlers.length) (hj : j < handlers.length)
    (msg : String) (hfail : handlers.get ⟨i, hi⟩ a = Except.error msg) :
    (dispatchAlerts handlers alerts).length = alerts.length ∧
    (a, handlers.map (fun h => h a)) ∈ dispatchAlerts handlers alerts ∧
    (handlers.map (fun h => h a)).get ⟨j, by simpa using hj⟩
      = handlers.get ⟨j, hj⟩ a := by
  refine ⟨by simp [dispatchAlerts], ?_, ?_⟩
  · exact List.mem_map_of_mem _ ha
  · simp [List.get_eq_getElem, List.getElem_map]

/-- C7 witness: with a raising handler registered first and a succeeding
handler second, the second handler still receives the alert and its outcome
is recorded. -/
theorem C7_witness :
    [failHandler, okHandler].get ⟨0, by decide⟩ sampleAlert = Except.error ("boom") ∧
    (sampleAlert, [failHandler, okHandler].map (fun h => h sampleAlert))
      ∈ dispatchAlerts [failHandler, okHandler] [sampleAlert] ∧
    ([failHandler, okHandler].map (fun h => h sampleAlert)).get ⟨1, by decide⟩
      = [failHandler, okHandler].get ⟨1, by decide⟩ sampleAlert := by
  have h := C7_dispatch_isolated [sampleAlert] [failHandler, okHandler] sampleAlert
    (List.mem_singleton.mpr rfl) 0 1 (by decide) (by decide) ("boom") rfl
  exact ⟨rfl, h.2.1, h.2.2⟩

/-- C4 counterexample: a completed poll whose fetch returned an empty event
set takes the early return of `alerts.py` lines 204-205 — `last_check` is
not set and no state is persisted, contradicting the claim. -/
theorem C4_counterexample :
    (check_for_earthquakes monitorAB (Except.ok []) 7).saved = none ∧
    (check_for_earthquakes monitorAB (Except.ok []) 7).monitor.last_check = none :=
  ⟨rfl, rfl⟩

/-- C4 (amended): a poll whose fetch returned a nonempty event set ends by
setting `last_check` to the current time and persisting the monitor state;
a cycle with an empty fetched set (or a failed fetch) returns early,
leaving `last_check` and the state file untouched. -/
theorem C4_amended_persist (m : EarthquakeMonitor) (events : List Event)
    (now : Timestamp) (msg : String) (hne : events ≠ []) :
    (check_for_earthquakes m (Except.ok events) now).monitor.last_check = some now ∧
    (check_for_earthquakes m (Except.ok events) now).saved
      = some (saveState (check_for_earthquakes m (Except.ok events) now).monitor) ∧
    (check_for_earthquakes m (Except.ok []) now).monitor = m ∧
    (check_for_earthquakes m (Except.ok []) now).saved = none ∧
    (check_for_earthquakes m (Except.error msg) now).saved = none := by
  cases events with
  | nil => exact absurd rfl hne
  | cons e rest => exact ⟨rfl, rfl, rfl, rfl, rfl⟩

/-- C4 witness: a nonempty poll on a concrete monitor sets `last_check` and
writes the state record. -/
theorem C4_witness :
    ([testEvent] : List Event) ≠ [] ∧
    (check_for_earthquakes monitorSeen (Except.ok [testEvent]) 7).monitor.last_check
      = some 7 ∧
    (check_for_earthquakes monitorSeen (Except.ok [testEvent]) 7).saved
      = some (saveState
          (check_for_earthquakes monitorSeen (Except.ok [testEvent]) 7).monitor) := by
  have h := C4_amended_persist monitorSeen [testEvent] 7 ("x") (List.cons_ne_nil _ _)
  exact ⟨List.cons_ne_nil _ _, h.1, h.2.1⟩

/-- C5 counterexample: registering a zone with magnitude floor 2.0 is a
legal `add_alert_zone` call, reaching a configuration in which the fixed
fetch floor 3.0 is not strictly lower than every zone floor. -/
theorem C5_counterexample :
    Reachable (add_alert_zone (loadState initialMonitor none) lowZone).1 ∧
    lowZone ∈ (add_alert_zone (loadState initialMonitor none) lowZone).1.alert_zones ∧
    ¬ MONITORING_FLOOR < lowZone.min_magnitude := by
  refine ⟨Reachable.addZone _ _ (Reachable.init none), ?_, ?_⟩
  · simp [add_alert_zone, loadState, initialMonitor]
  · norm_num [MONITORING_FLOOR, lowZone]

/-- C5 (amended): the fixed fetch floor 3.0 is strictly lower than the
magnitude floor of every zone of the demo configuration
(`create_demo_monitor`); `add_alert_zone` itself enforces no such bound, so
the invariant does not extend to arbitrary reachable configurations. -/
theorem C5_amended_demo_floor :
    demoZones.Forall (fun z => MONITORING_FLOOR < z.min_magnitude) := by
  norm_num [demoZones, List.Forall, MONITORING_FLOOR]

/-- C1: for a fetched event with an unseen id that satisfies the
containment test of more than one registered zone (the zone at index `k`
is the earliest match, and a later zone at index `j` also matches), the
poll produces exactly one alert for that event, built from the earliest
matching zone — the scan stops at the first match. -/
theorem C1_first_match_wins (m : EarthquakeMonitor) (events : List Event)
    (now : Timestamp) (e : Event) (k j : ℕ)
    (he : e ∈ events)
    (hnodup : (events.map Event.id).Nodup)
    (hnew : e.id ∉ m.seen_earthquakes)
    (hk : k < m.alert_zones.length)
    (hzk : (m.alert_zones.get ⟨k, hk⟩).contains_earthquake
      e.latitude e.longitude e.magnitude)
    (hfirst : ∀ l (hl : l < m.alert_zones.length), l < k →
      ¬ (m.alert_zones.get ⟨l, hl⟩).contains_earthquake
        e.latitude e.longitude e.magnitude)
    (hj : j < m.alert_zones.length) (hkj : k < j)
    (hzj : (m.alert_zones.get ⟨j, hj⟩).contains_earthquake
      e.latitude e.longitude e.magnitude) :
    (check_for_earthquakes m (Except.ok events) now).new_alerts.filter
        (fun a => a.earthquake_id == e.id)
      = [mkAlert e (m.alert_zones.get ⟨k, hk⟩) now] := by
  have hscan : scanZones m.alert_zones e = some (m.alert_zones.get ⟨k, hk⟩) :=
    scanZones_first m.alert_zones e k hk hzk hfirst
  cases events with
  | nil => cases he
  | cons e0 rest =>
    exact processEvents_filter_singleton m.alert_zones now m.seen_earthquakes
      (e0 :: rest) e (m.alert_zones.get ⟨k, hk⟩) he hnodup hnew hscan

/-- C1 witness: the concrete event (1,1, magnitude 5) matches both
overlapping zones of `monitorAB`; the poll yields exactly one alert for it,
attributed to the first-registered zone. -/
theorem C1_witness :
    testZone.contains_earthquake
      testEvent.latitude testEvent.longitude testEvent.magnitude ∧
    zoneWide.contains_earthquake
      testEvent.latitude testEvent.longitude testEvent.magnitude ∧
    (check_for_earthquakes monitorAB (Except.ok [testEvent]) 7).new_alerts.filter
        (fun a => a.earthquake_id == testEvent.id)
      = [mkAlert testEvent testZone 7] := by
  have hA : testZone.contains_earthquake 1 1 5 := by
    rw [contains_iff_ratTest]
    norm_num [testZone, AlertZone.distSqKm]
  have hB : zoneWide.contains_earthquake 1 1 5 := by
    rw [contains_iff_ratTest]
    norm_num [zoneWide, AlertZone.distSqKm]
  have h := C1_first_match_wins monitorAB [testEvent] 7 testEvent 0 1
    (List.mem_singleton.mpr rfl) (by simp) (Finset.not_mem_empty _)
    (by simp [monitorAB]) hA (fun l hl hlk => absurd hlk (Nat.not_lt_zero l))
    (by simp [monitorAB]) Nat.zero_lt_one hB
  exact ⟨hA, hB, h⟩

end Seismowatch
